import Mathlib

/-!
Verification of the Liberation AI development-environment orchestrator and
proxy service.  The Python sources (`universal_launcher.py`,
`local_proxy_service.py`) are shallowly embedded: Python strings become
`List Char`, dictionaries become association lists, OS capabilities
(file existence, process spawning, process termination) become explicit
function parameters, and each handler becomes a pure Lean function over
those inputs.
-/

namespace Liberation

/-- Strings are modelled as lists of characters so that Python slicing,
`startswith`, `endswith` and `in` translate to list operations. -/
abbrev Str := List Char

/-- Python `s.endswith(suf)`. -/
def pyEndsWith (s suf : Str) : Bool := suf.isSuffixOf s

/-- Python `s.startswith(pre)`. -/
def pyStartsWith (s pre : Str) : Bool := pre.isPrefixOf s

/-- Python `sub in s`: substring containment. -/
def pyIn (sub : Str) : Str → Bool
  | [] => sub.isEmpty
  | a :: t => sub.isPrefixOf (a :: t) || pyIn sub t

theorem pyIn_iff (sub s : Str) : pyIn sub s = true ↔ sub <:+: s := by
  induction s with
  | nil =>
      simp [pyIn, List.isEmpty_iff]
  | cons a t ih =>
      simp [pyIn, List.infix_cons_iff, ih, List.isPrefixOf_iff_prefix]

/-- Embedding of `UniversalLauncher._matches_pattern` (universal_launcher.py,
lines 320-342): a wildcard pattern ending in `.*` matches by prefix after
dropping the final two characters (Python `pattern[:-2]`), a pattern starting
with `*` matches by suffix after dropping the first character (Python
`pattern[1:]`), and any other pattern matches if the candidate ends with it
or contains it as a substring. -/
def matchesPattern (ip_address pattern : Str) : Bool :=
  if pyEndsWith pattern ('.' :: '*' :: []) then
    pyStartsWith ip_address (pattern.take (pattern.length - 2))
  else if pyStartsWith pattern ('*' :: []) then
    pyEndsWith ip_address (pattern.drop 1)
  else
    pyEndsWith ip_address pattern || pyIn pattern ip_address

/-- C3: for every candidate and pattern, `matchesPattern` returns: if the
pattern ends with `.*`, whether the candidate starts with the pattern minus
its last two characters; otherwise, if the pattern starts with `*`, whether
the candidate ends with the pattern minus its first character; otherwise,
whether the candidate ends with the pattern or the pattern occurs as a
substring of the candidate. -/
theorem matchesPattern_characterisation (c p : Str) :
    matchesPattern c p = true ↔
      (if ('.' :: '*' :: []) <:+ p then (p.take (p.length - 2)) <+: c
       else if ('*' :: []) <+: p then (p.drop 1) <:+ c
       else (p <:+ c ∨ p <:+: c)) := by
  simp only [matchesPattern, pyEndsWith, pyStartsWith]
  by_cases h1 : ('.' :: '*' :: []) <:+ p
  · have hb1 : List.isSuffixOf ('.' :: '*' :: []) p = true :=
      List.isSuffixOf_iff_suffix.mpr h1
    simp [hb1, h1, List.isPrefixOf_iff_prefix]
  · have hb1 : List.isSuffixOf ('.' :: '*' :: []) p = false := by
      rw [Bool.eq_false_iff]
      intro hc
      exact h1 (List.isSuffixOf_iff_suffix.mp hc)
    by_cases h2 : ('*' :: []) <+: p
    · have hb2 : List.isPrefixOf ('*' :: []) p = true :=
        List.isPrefixOf_iff_prefix.mpr h2
      simp [hb1, h1, hb2, h2, List.isSuffixOf_iff_suffix]
    · have hb2 : List.isPrefixOf ('*' :: []) p = false := by
        rw [Bool.eq_false_iff]
        intro hc
        exact h2 (List.isPrefixOf_iff_prefix.mp hc)
      simp [hb1, h1, hb2, h2, List.isSuffixOf_iff_suffix, pyIn_iff]

/-- C3 witness: `matchesPattern` evaluated through the characterisation at a
concrete candidate and pattern. -/
theorem matchesPattern_characterisation_witness :
    matchesPattern ('a' :: 'p' :: 'i' :: '.' :: 'x' :: '.' :: 'c' :: 'o' :: 'm' :: [])
        ('x' :: '.' :: 'c' :: 'o' :: 'm' :: []) = true ↔
      (if ('.' :: '*' :: []) <:+ ('x' :: '.' :: 'c' :: 'o' :: 'm' :: []) then
        (('x' :: '.' :: 'c' :: 'o' :: 'm' :: []).take
            (('x' :: '.' :: 'c' :: 'o' :: 'm' :: []).length - 2)) <+:
          ('a' :: 'p' :: 'i' :: '.' :: 'x' :: '.' :: 'c' :: 'o' :: 'm' :: [])
       else if ('*' :: []) <+: ('x' :: '.' :: 'c' :: 'o' :: 'm' :: []) then
        (('x' :: '.' :: 'c' :: 'o' :: 'm' :: []).drop 1) <:+
          ('a' :: 'p' :: 'i' :: '.' :: 'x' :: '.' :: 'c' :: 'o' :: 'm' :: [])
       else (('x' :: '.' :: 'c' :: 'o' :: 'm' :: []) <:+
              ('a' :: 'p' :: 'i' :: '.' :: 'x' :: '.' :: 'c' :: 'o' :: 'm' :: []) ∨
            ('x' :: '.' :: 'c' :: 'o' :: 'm' :: []) <:+:
              ('a' :: 'p' :: 'i' :: '.' :: 'x' :: '.' :: 'c' :: 'o' :: 'm' :: []))) :=
  matchesPattern_characterisation _ _

/-- C4 counterexample: on the empty candidate and empty pattern the matcher
returns `true`, not `false` as claimed — in Python every string ends with the
empty string, so the final branch `ip_address.endswith(pattern)` succeeds. -/
theorem matchesPattern_empty_empty : matchesPattern ([] : Str) ([] : Str) = true := by
  decide

/-- C4 (amended): the matcher never raises and is total; the empty pattern
matches every candidate (including the empty one), while the empty candidate
is rejected by every pattern other than the degenerate wildcards `.*` and
`*` and the empty pattern itself. -/
theorem matchesPattern_empty_cases (c p : Str) (hp : p ≠ [])
    (hstar : p ≠ ('*' :: [])) (hdotstar : p ≠ ('.' :: '*' :: [])) :
    matchesPattern c [] = true ∧ matchesPattern [] p = false := by
  constructor
  · simp [matchesPattern, pyEndsWith, pyStartsWith, List.isSuffixOf]
  · rw [Bool.eq_false_iff]
    intro h
    rw [matchesPattern_characterisation] at h
    by_cases h1 : ('.' :: '*' :: []) <:+ p
    · rw [if_pos h1] at h
      have hlen : 2 ≤ p.length := by
        have := h1.length_le
        simpa using this
      have htake : (p.take (p.length - 2)).length = p.length - 2 := by
        simp [List.length_take]
      have h0 : p.take (p.length - 2) = [] := List.prefix_nil.mp h
      have : p.length - 2 = 0 := by
        rw [← htake, h0]; rfl
      have hlen2 : p.length = 2 := by omega
      have : ('.' :: '*' :: []) = p := h1.eq_of_length (by simp [hlen2])
      exact hdotstar this.symm
    · rw [if_neg h1] at h
      by_cases h2 : ('*' :: []) <+: p
      · rw [if_pos h2] at h
        have h0 : p.drop 1 = [] := List.suffix_nil.mp h
        have hlen1 : p.length ≤ 1 := by
          have := List.length_drop 1 p
          rw [h0] at this
          simp at this
          omega
        have hl : ('*' :: []).length = p.length := by
          have := h2.length_le
          simp at this ⊢
          omega
        have : ('*' :: []) = p := h2.eq_of_length hl
        exact hstar this.symm
      · rw [if_neg h2] at h
        rcases h with h | h
        · exact hp (List.suffix_nil.mp h)
        · exact hp (List.eq_nil_of_infix_nil h)

/-- C4 witness: the amended statement instantiated at the candidate `"a"` and
the pattern `"b"`. -/
theorem matchesPattern_empty_cases_witness :
    matchesPattern ('a' :: []) [] = true ∧ matchesPattern [] ('b' :: []) = false :=
  matchesPattern_empty_cases ('a' :: []) ('b' :: []) (by decide) (by decide) (by decide)

/-- The fields of a `psutil` connection entry that `manage_cloud_handshake`
inspects: connection status, the optional remote address (`conn.raddr.ip`,
`none` when `conn.raddr` is absent), and the owning process id. -/
structure Conn where
  status : Str
  raddr : Option Str
  pid : Nat

/-- The `psutil` status string for established connections. -/
def establishedStr : Str := "ESTABLISHED".data

/-- The pass over the block-pattern list inside `manage_cloud_handshake`
(universal_launcher.py, lines 290-299): the Python
`for domain_pattern in blocked_domains` loop has no `break`, so every
matching pattern triggers a termination attempt; each successful attempt
(success modelled by `canKill`) records the pid and increments the
`redirected_connections` counter. -/
def guardPatterns (canKill : Nat → Bool) (addr : Str) (pid : Nat) :
    List Str → Nat × List Nat
  | [] => (0, [])
  | pat :: rest =>
      let s := guardPatterns canKill addr pid rest
      if matchesPattern addr pat then
        if canKill pid then (s.1 + 1, pid :: s.2) else s
      else s

/-- One iteration of the `for conn in connections` loop in
`manage_cloud_handshake`: only `ESTABLISHED` connections whose remote
address is present and truthy (non-empty) are tested against the patterns. -/
def guardConn (canKill : Nat → Bool) (patterns : List Str) (c : Conn) :
    Nat × List Nat :=
  if c.status = establishedStr then
    match c.raddr with
    | some addr =>
        if addr = [] then (0, [])
        else guardPatterns canKill addr c.pid patterns
    | none => (0, [])
  else (0, [])

/-- Embedding of `UniversalLauncher.manage_cloud_handshake`
(universal_launcher.py, lines 268-318), restricted to its observable
effects on a synthetic connection table: the returned
`redirected_connections` counter and the ordered list of terminated pids. -/
def manage_cloud_handshake (canKill : Nat → Bool) (patterns : List Str) :
    List Conn → Nat × List Nat
  | [] => (0, [])
  | c :: rest =>
      let r := guardConn canKill patterns c
      let s := manage_cloud_handshake canKill patterns rest
      (r.1 + s.1, r.2 ++ s.2)

/-- Modelled from the claim wording: how many block patterns a single
connection matches (zero when the connection is not established or has no
usable remote address). -/
def connMatchCount (patterns : List Str) (c : Conn) : Nat :=
  if c.status = establishedStr then
    match c.raddr with
    | some a => if a = [] then 0 else patterns.countP fun p => matchesPattern a p
    | none => 0
  else 0

/-- Modelled from the claim wording: total number of (connection, pattern)
matching pairs over the table. -/
def matchingPairCount (patterns : List Str) (conns : List Conn) : Nat :=
  (conns.map (connMatchCount patterns)).sum

/-- Modelled from the claim wording: the number M of table entries that are
established, have a usable remote address, and match at least one block
pattern. -/
def matchingConnCount (patterns : List Str) (conns : List Conn) : Nat :=
  conns.countP fun c => decide (0 < connMatchCount patterns c)

theorem guardPatterns_true_count (addr : Str) (pid : Nat) (pats : List Str) :
    (guardPatterns (fun _ => true) addr pid pats).1 =
      pats.countP fun p => matchesPattern addr p := by
  induction pats with
  | nil => rfl
  | cons p ps ih =>
      cases h : matchesPattern addr p with
      | true => simp [guardPatterns, h, List.countP_cons, ih]
      | false => simp [guardPatterns, h, List.countP_cons, ih]

theorem guardPatterns_mem (canKill : Nat → Bool) (addr : Str) (pid : Nat)
    (pats : List Str) (q : Nat) :
    q ∈ (guardPatterns canKill addr pid pats).2 →
      q = pid ∧ ∃ p ∈ pats, matchesPattern addr p = true := by
  induction pats with
  | nil => intro h; simp [guardPatterns] at h
  | cons p ps ih =>
      intro hmem
      cases h : matchesPattern addr p with
      | true =>
          cases hk : canKill pid with
          | true =>
              simp [guardPatterns, h, hk] at hmem
              rcases hmem with rfl | hmem
              · exact ⟨rfl, p, by simp, h⟩
              · rcases ih hmem with ⟨rfl, pp, hpp, hm⟩
                exact ⟨rfl, pp, by simp [hpp], hm⟩
          | false =>
              simp [guardPatterns, h, hk] at hmem
              rcases ih hmem with ⟨rfl, pp, hpp, hm⟩
              exact ⟨rfl, pp, by simp [hpp], hm⟩
      | false =>
          simp [guardPatterns, h] at hmem
          rcases ih hmem with ⟨rfl, pp, hpp, hm⟩
          exact ⟨rfl, pp, by simp [hpp], hm⟩

theorem guardConn_true_count (patterns : List Str) (c : Conn) :
    (guardConn (fun _ => true) patterns c).1 = connMatchCount patterns c := by
  unfold guardConn connMatchCount
  by_cases hs : c.status = establishedStr
  · simp only [hs, if_pos]
    cases hr : c.raddr with
    | none => rfl
    | some a =>
        by_cases ha : a = []
        · simp [ha]
        · simp [ha, guardPatterns_true_count]
  · simp [hs]

theorem guardConn_mem (canKill : Nat → Bool) (patterns : List Str) (c : Conn)
    (q : Nat) :
    q ∈ (guardConn canKill patterns c).2 →
      c.pid = q ∧ c.status = establishedStr ∧
        ∃ a, c.raddr = some a ∧ a ≠ [] ∧ ∃ p ∈ patterns, matchesPattern a p = true := by
  intro hmem
  by_cases hs : c.status = establishedStr
  · cases hr : c.raddr with
    | none => simp [guardConn, hs, hr] at hmem
    | some a =>
        by_cases ha : a = []
        · simp [guardConn, hs, hr, ha] at hmem
        · simp only [guardConn, hs, hr, ha, if_true, if_false, ite_true, ite_false,
            if_pos, if_neg, not_false_iff] at hmem
          rcases guardPatterns_mem canKill a c.pid patterns q hmem with ⟨rfl, p, hp, hm⟩
          exact ⟨rfl, hs, a, rfl, ha, p, hp, hm⟩
  · simp [guardConn, hs] at hmem

/-- C1 (amended): with every requested termination succeeding, the
`redirected_connections` counter equals the number of (connection, pattern)
matching pairs — a connection matching several block patterns is terminated
and counted once per matching pattern, because the pattern loop does not
stop at the first match — and every terminated pid belongs to an
established connection whose remote address matches some block pattern. -/
theorem manage_cloud_handshake_spec (patterns : List Str) (conns : List Conn) :
    (manage_cloud_handshake (fun _ => true) patterns conns).1 =
        matchingPairCount patterns conns
    ∧ ∀ q ∈ (manage_cloud_handshake (fun _ => true) patterns conns).2,
        ∃ c ∈ conns, c.pid = q ∧ c.status = establishedStr ∧
          ∃ a, c.raddr = some a ∧ a ≠ [] ∧
            ∃ p ∈ patterns, matchesPattern a p = true := by
  induction conns with
  | nil => exact ⟨rfl, by intro q h; simp [manage_cloud_handshake] at h⟩
  | cons c rest ih =>
      constructor
      · have h1 := guardConn_true_count patterns c
        have h2 := ih.1
        simp only [manage_cloud_handshake, matchingPairCount, List.map_cons,
          List.sum_cons] at h2 ⊢
        omega
      · intro q hq
        simp only [manage_cloud_handshake, List.mem_append] at hq
        rcases hq with hq | hq
        · rcases guardConn_mem _ patterns c q hq with ⟨h1, h2, h3⟩
          exact ⟨c, by simp, h1, h2, h3⟩
        · rcases ih.2 q hq with ⟨c', hc', rest'⟩
          exact ⟨c', by simp [hc'], rest'⟩

/-- C1 witness: the amended statement applied to a concrete two-pattern,
one-connection table. -/
theorem manage_cloud_handshake_spec_witness :
    (manage_cloud_handshake (fun _ => true)
        (("a.com".data) :: ("*.com".data) :: []) (Conn.mk establishedStr (some ("a.com".data)) 7 :: [])).1 =
        matchingPairCount (("a.com".data) :: ("*.com".data) :: [])
          (Conn.mk establishedStr (some ("a.com".data)) 7 :: [])
    ∧ ∀ q ∈ (manage_cloud_handshake (fun _ => true)
        (("a.com".data) :: ("*.com".data) :: []) (Conn.mk establishedStr (some ("a.com".data)) 7 :: [])).2,
        ∃ c ∈ (Conn.mk establishedStr (some ("a.com".data)) 7 :: []),
          c.pid = q ∧ c.status = establishedStr ∧
          ∃ a, c.raddr = some a ∧ a ≠ [] ∧
            ∃ p ∈ (("a.com".data) :: ("*.com".data) :: []), matchesPattern a p = true :=
  manage_cloud_handshake_spec _ _

/-- C1 counterexample: a single established connection to `a.com` matches
both block patterns `a.com` and `*.com`; the guard counts it twice
(`redirected_connections = 2`) while the number M of matching connections
is 1, so `terminatedCount` does not equal M. -/
theorem manage_cloud_handshake_counterexample :
    (manage_cloud_handshake (fun _ => true)
        (("a.com".data) :: ("*.com".data) :: []) (Conn.mk establishedStr (some ("a.com".data)) 7 :: [])).1 = 2
    ∧ matchingConnCount (("a.com".data) :: ("*.com".data) :: [])
        (Conn.mk establishedStr (some ("a.com".data)) 7 :: []) = 1 := by
  constructor <;> rfl

/-- A backend chunk as read by `_handle_streaming_chat`
(local_proxy_service.py, lines 238-287): each field the handler extracts
from the Ollama response dict, with `none` standing for an absent key so
that Python's `response.get(key, default)` becomes `Option.getD`. -/
structure Chunk where
  model : Option Str
  created_at : Option Str
  message : Option Str
  done : Option Bool
  total_duration : Option Nat
  load_duration : Option Nat
  prompt_eval_count : Option Nat
  eval_count : Option Nat

/-- The self-contained JSON payload written for one chunk (the
`processed_response` dict); the wall-clock `timestamp` field is omitted as
it does not depend on the chunk. -/
structure Event where
  model : Str
  created_at : Str
  message : Str
  done : Bool
  total_duration : Nat
  load_duration : Nat
  prompt_eval_count : Nat
  eval_count : Nat

/-- Building `processed_response` from a backend chunk, with the request
model name as the default for the `model` field. -/
def toEvent (model : Str) (c : Chunk) : Event :=
  { model := c.model.getD model
    created_at := c.created_at.getD []
    message := c.message.getD []
    done := c.done.getD false
    total_duration := c.total_duration.getD 0
    load_duration := c.load_duration.getD 0
    prompt_eval_count := c.prompt_eval_count.getD 0
    eval_count := c.eval_count.getD 0 }

/-- Embedding of the relay loop of `_handle_streaming_chat`: each backend
chunk is converted to an event, written and flushed, and the loop breaks
right after writing the first chunk whose `done` field is truthy. The
returned list is the ordered sequence of events written to the client. -/
def streamEvents (model : Str) : List Chunk → List Event
  | [] => []
  | c :: rest =>
      toEvent model c :: (if c.done.getD false then [] else streamEvents model rest)

/-- C2: when the k-th backend chunk is the first marked done, the handler
writes exactly the first k chunks as events, in order, the last written
event carries completion flag true, and nothing is forwarded after it. -/
theorem streamEvents_stops_at_first_done (model : Str) (pre : List Chunk)
    (c : Chunk) (post : List Chunk)
    (hpre : ∀ x ∈ pre, x.done.getD false = false)
    (hc : c.done.getD false = true) :
    streamEvents model (pre ++ c :: post) = (pre ++ c :: []).map (toEvent model)
    ∧ (streamEvents model (pre ++ c :: post)).length = pre.length + 1
    ∧ (streamEvents model (pre ++ c :: post)).getLast? = some (toEvent model c)
    ∧ (toEvent model c).done = true := by
  have main : streamEvents model (pre ++ c :: post) = (pre ++ c :: []).map (toEvent model) := by
    induction pre with
    | nil => simp [streamEvents, hc]
    | cons x xs ih =>
        have hx : x.done.getD false = false := hpre x (by simp)
        have ih2 := ih fun y hy => hpre y (by simp [hy])
        simp [streamEvents, hx, ih2]
  refine ⟨main, ?_, ?_, ?_⟩
  · rw [main]; simp
  · rw [main, List.map_append]
    simp
  · simp [toEvent, hc]

/-- A concrete non-final demo chunk. -/
def demoChunk (msg : Str) : Chunk := ⟨none, none, some msg, some false, none, none, none, none⟩

/-- A concrete final demo chunk (marked done). -/
def demoDoneChunk : Chunk := ⟨none, none, some [], some true, none, none, none, none⟩

/-- C2 witness: a backend producing two partial chunks and then a chunk
marked done yields exactly three events, the last one done. -/
theorem streamEvents_stops_at_first_done_witness :
    streamEvents [] ((demoChunk ('h' :: []) :: demoChunk ('i' :: []) :: []) ++ demoDoneChunk :: []) =
        ((demoChunk ('h' :: []) :: demoChunk ('i' :: []) :: []) ++ demoDoneChunk :: []).map (toEvent [])
    ∧ (streamEvents [] ((demoChunk ('h' :: []) :: demoChunk ('i' :: []) :: []) ++ demoDoneChunk :: [])).length =
        (demoChunk ('h' :: []) :: demoChunk ('i' :: []) :: []).length + 1
    ∧ (streamEvents [] ((demoChunk ('h' :: []) :: demoChunk ('i' :: []) :: []) ++ demoDoneChunk :: [])).getLast? =
        some (toEvent [] demoDoneChunk)
    ∧ (toEvent [] demoDoneChunk).done = true :=
  streamEvents_stops_at_first_done [] (demoChunk ('h' :: []) :: demoChunk ('i' :: []) :: [])
    demoDoneChunk [] (by decide) (by decide)

/-- The observable state of a supervised subprocess: `alive` while `poll()`
returns `None`, otherwise `exited` with the recorded return code. -/
inductive ProcState where
  | alive
  | exited (code : Int)
deriving DecidableEq

/-- A tracked subprocess: its pid and its current state. -/
structure Proc where
  pid : Nat
  state : ProcState
deriving DecidableEq

/-- The health record built by `check_service_health`: the status string,
the pid when the service was found, and the exit code reported only on the
stopped branch. -/
structure Health where
  status : Str
  pid : Option Nat
  exit_code : Option Int
deriving DecidableEq

/-- Embedding of `UniversalLauncher.check_service_health`
(universal_launcher.py, lines 233-266): `NOT_FOUND` when the service is not
in the process table, `HEALTHY` while `poll()` returns `None`, and
`STOPPED` with the recorded return code on any exit. -/
def check_service_health (procs : List (Str × Proc)) (name : Str) : Health :=
  match procs.lookup name with
  | none => ⟨"NOT_FOUND".data, none, none⟩
  | some p =>
      match p.state with
      | ProcState.alive => ⟨"HEALTHY".data, some p.pid, none⟩
      | ProcState.exited code => ⟨"STOPPED".data, some p.pid, some code⟩

/-- Modelled from the claim wording (C5): the classification the claim
asserts — RUNNING while alive, STOPPED on a clean (zero) exit, FAILED on a
non-zero exit or when the service was never found. -/
def healthOf_claimed (procs : List (Str × Proc)) (name : Str) : Str :=
  match procs.lookup name with
  | none => "FAILED".data
  | some p =>
      match p.state with
      | ProcState.alive => "RUNNING".data
      | ProcState.exited code => if code = 0 then "STOPPED".data else "FAILED".data

/-- C5 counterexample: the code reports the same status string `STOPPED`
for a clean exit and for exit code 1, while the claim demands distinct
classes (STOPPED vs FAILED) there; and a service never found reports
`NOT_FOUND`, not `FAILED`. -/
theorem check_service_health_counterexample :
    (check_service_health ((("s".data), Proc.mk 5 (ProcState.exited 0)) :: []) ("s".data)).status =
      (check_service_health ((("s".data), Proc.mk 5 (ProcState.exited 1)) :: []) ("s".data)).status
    ∧ healthOf_claimed ((("s".data), Proc.mk 5 (ProcState.exited 0)) :: []) ("s".data) ≠
      healthOf_claimed ((("s".data), Proc.mk 5 (ProcState.exited 1)) :: []) ("s".data)
    ∧ (check_service_health ((("s".data), Proc.mk 5 (ProcState.exited 1)) :: []) ("s".data)).status ≠
      ("FAILED".data)
    ∧ (check_service_health ([] : List (Str × Proc)) ("s".data)).status = ("NOT_FOUND".data) := by
  refine ⟨rfl, by decide, by decide, rfl⟩

/-- C5 (amended): `check_service_health` re-probes the recorded process
state on demand and reports `HEALTHY` while the process is alive, `STOPPED`
together with the recorded exit code on any exit (zero or non-zero), and
`NOT_FOUND` when the service was never started. -/
theorem check_service_health_classification (procs : List (Str × Proc)) (name : Str) :
    (procs.lookup name = none →
      check_service_health procs name = ⟨"NOT_FOUND".data, none, none⟩)
    ∧ (∀ p, procs.lookup name = some p → p.state = ProcState.alive →
        check_service_health procs name = ⟨"HEALTHY".data, some p.pid, none⟩)
    ∧ (∀ p code, procs.lookup name = some p → p.state = ProcState.exited code →
        check_service_health procs name = ⟨"STOPPED".data, some p.pid, some code⟩) := by
  refine ⟨?_, ?_, ?_⟩
  · intro h; simp [check_service_health, h]
  · intro p hp hs; simp [check_service_health, hp, hs]
  · intro p code hp hs; simp [check_service_health, hp, hs]

/-- C5 witness: the amended classification applied to a one-entry table
holding a process that exited with code 1. -/
theorem check_service_health_classification_witness :
    ((((("s".data), Proc.mk 5 (ProcState.exited 1)) :: []).lookup ("s".data) = none →
      check_service_health ((("s".data), Proc.mk 5 (ProcState.exited 1)) :: []) ("s".data) =
        ⟨"NOT_FOUND".data, none, none⟩)
    ∧ (∀ p, ((("s".data), Proc.mk 5 (ProcState.exited 1)) :: []).lookup ("s".data) = some p →
        p.state = ProcState.alive →
        check_service_health ((("s".data), Proc.mk 5 (ProcState.exited 1)) :: []) ("s".data) =
          ⟨"HEALTHY".data, some p.pid, none⟩)
    ∧ (∀ p code, ((("s".data), Proc.mk 5 (ProcState.exited 1)) :: []).lookup ("s".data) = some p →
        p.state = ProcState.exited code →
        check_service_health ((("s".data), Proc.mk 5 (ProcState.exited 1)) :: []) ("s".data) =
          ⟨"STOPPED".data, some p.pid, some code⟩)) :=
  check_service_health_classification ((("s".data), Proc.mk 5 (ProcState.exited 1)) :: []) ("s".data)

/-- A configured service descriptor as read by `start_services`: the script
path (`none` when the `script` key is absent) and the configured port. -/
structure ServiceConfig where
  script : Option Str
  port : Option Nat
deriving DecidableEq

/-- Outcome of spawning a script and waiting the settle interval: the
process is still alive at the first poll, or it already exited and its
stderr was captured. -/
inductive SpawnResult where
  | alive (pid : Nat)
  | exitedEarly (pid : Nat) (stderr : Str)
deriving DecidableEq

/-- The OS capabilities `start_services` consumes: file existence and
process spawning, keyed by script path. -/
structure SpawnEnv where
  fileExists : Str → Bool
  spawn : Str → SpawnResult

/-- A service's recorded startup status. -/
inductive ServiceStatus where
  | running (pid : Nat) (port : Option Nat) (script : Str)
  | failed (error : Str) (pid : Option Nat)
deriving DecidableEq

/-- The error text recorded when the script path is falsy or missing. -/
def scriptNotFoundMsg (s : Option Str) : Str :=
  ("Script not found: ".data) ++ (match s with | none => "None".data | some t => t)

/-- One iteration of the service loop in `start_services`
(universal_launcher.py, lines 172-229): a missing or falsy script path is
recorded as FAILED with a script-not-found reason; otherwise the script is
spawned and probed once after the settle interval. -/
def startOne (env : SpawnEnv) (cfg : ServiceConfig) : ServiceStatus :=
  match cfg.script with
  | none => ServiceStatus.failed (scriptNotFoundMsg none) none
  | some s =>
      if s = [] ∨ env.fileExists s = false then
        ServiceStatus.failed (scriptNotFoundMsg (some s)) none
      else
        match env.spawn s with
        | SpawnResult.alive pid => ServiceStatus.running pid cfg.port s
        | SpawnResult.exitedEarly pid err => ServiceStatus.failed err (some pid)

/-- Embedding of `UniversalLauncher.start_services` (universal_launcher.py,
lines 162-231): every configured service is processed in sequence and given
a status record; a failure never stops the loop. -/
def start_services (env : SpawnEnv) (services : List (Str × ServiceConfig)) :
    List (Str × ServiceStatus) :=
  services.map fun sc => (sc.1, startOne env sc.2)

/-- C6: every descriptor gets a status entry computed from that descriptor
alone — a descriptor whose launch target does not exist is recorded FAILED
with a script-not-found reason and does not affect any other descriptor, so
a valid descriptor still reaches RUNNING regardless of earlier failures. -/
theorem start_services_isolation (env : SpawnEnv)
    (services : List (Str × ServiceConfig)) (i : Nat) (h : i < services.length) :
    (start_services env services)[i]? =
        some ((services.get ⟨i, h⟩).1, startOne env (services.get ⟨i, h⟩).2)
    ∧ ((services.get ⟨i, h⟩).2.script = none →
        startOne env (services.get ⟨i, h⟩).2 =
          ServiceStatus.failed (scriptNotFoundMsg none) none)
    ∧ (∀ s, (services.get ⟨i, h⟩).2.script = some s →
        (s = [] ∨ env.fileExists s = false) →
        startOne env (services.get ⟨i, h⟩).2 =
          ServiceStatus.failed (scriptNotFoundMsg (some s)) none)
    ∧ (∀ s pid, (services.get ⟨i, h⟩).2.script = some s → s ≠ [] →
        env.fileExists s = true → env.spawn s = SpawnResult.alive pid →
        startOne env (services.get ⟨i, h⟩).2 =
          ServiceStatus.running pid (services.get ⟨i, h⟩).2.port s) := by
  refine ⟨?_, ?_, ?_, ?_⟩
  · simp [start_services, List.getElem?_map, List.getElem?_eq_getElem h, List.get_eq_getElem]
  · intro hs
    have hs' := hs
    simp only [List.get_eq_getElem] at hs'
    simp [startOne, hs']
  · intro s hs hbad
    have hs' := hs
    simp only [List.get_eq_getElem] at hs'
    simp [startOne, hs', hbad]
  · intro s pid hs hne hex hsp
    have hs' := hs
    simp only [List.get_eq_getElem] at hs'
    simp [startOne, hs', hne, hex, hsp]

/-- A demo environment in which only `good.py` exists and every spawn
settles into a live process with pid 42. -/
def demoSpawnEnv : SpawnEnv :=
  ⟨fun s => s == ("good.py".data), fun _ => SpawnResult.alive 42⟩

/-- A demo service table: the first descriptor points at a missing script,
the second at an existing one. -/
def demoServices : List (Str × ServiceConfig) :=
  (("bad".data), ServiceConfig.mk (some ("missing.py".data)) (some 9090)) ::
  (("good".data), ServiceConfig.mk (some ("good.py".data)) (some 8080)) :: []

/-- C6 witness: in the demo table the second service reaches RUNNING even
though the first descriptor failed with a missing script. -/
theorem start_services_isolation_witness :
    (start_services demoSpawnEnv demoServices)[1]? =
      some (("good".data), ServiceStatus.running 42 (some 8080) ("good.py".data)) := by
  have h := start_services_isolation demoSpawnEnv demoServices 1 (by decide)
  have h4 := h.2.2.2 ("good.py".data) 42 rfl (by decide) (by decide) rfl
  rw [h.1, h4]
  rfl

/-- How a tracked process reacts to the shutdown sequence: graceful
termination within the 10-second wait, a timeout that forces a kill, or an
exception raised by one of the shutdown steps. -/
inductive TermBehavior where
  | gracefulOk
  | timeoutThenKill
  | raisesError
deriving DecidableEq

/-- A tracked process handle at shutdown time: its pid, whether `poll()`
still returns `None`, and how it reacts to termination. -/
structure Handle where
  pid : Nat
  alive : Bool
  behavior : TermBehavior
deriving DecidableEq

/-- A process-control action issued during shutdown. -/
inductive ShutdownAction where
  | term (pid : Nat)
  | kill (pid : Nat)
deriving DecidableEq

/-- One iteration of the shutdown loop (universal_launcher.py, lines
666-681): a live process gets `terminate()`, then `wait(timeout=10)`,
escalating to `kill()` on timeout; any exception is caught, flips the
success flag and moves on to the next handle. -/
def shutdownOne (h : Handle) : Bool × List ShutdownAction :=
  if h.alive then
    match h.behavior with
    | TermBehavior.gracefulOk => (true, ShutdownAction.term h.pid :: [])
    | TermBehavior.timeoutThenKill =>
        (true, ShutdownAction.term h.pid :: ShutdownAction.kill h.pid :: [])
    | TermBehavior.raisesError => (false, ShutdownAction.term h.pid :: [])
  else (true, [])

/-- The `for service_name, process in self.processes.items()` loop of
`shutdown`: the success flag is the conjunction of the per-handle flags and
the issued actions accumulate in order. -/
def shutdownLoop : List (Str × Handle) → Bool × List ShutdownAction
  | [] => (true, [])
  | nh :: rest =>
      let r := shutdownOne nh.2
      let s := shutdownLoop rest
      (r.1 && s.1, r.2 ++ s.2)

/-- Embedding of `UniversalLauncher.shutdown` (universal_launcher.py, lines
656-685): best-effort termination of every tracked process followed by
`self.processes.clear()`; returns the success flag, the issued actions and
the (always empty) final handle table. -/
def shutdown (procs : List (Str × Handle)) :
    Bool × List ShutdownAction × List (Str × Handle) :=
  ((shutdownLoop procs).1, (shutdownLoop procs).2, [])

theorem shutdownLoop_success (procs : List (Str × Handle)) :
    (shutdownLoop procs).1 = true ↔
      ∀ nh ∈ procs, nh.2.alive = true → nh.2.behavior ≠ TermBehavior.raisesError := by
  induction procs with
  | nil => simp [shutdownLoop]
  | cons nh rest ih =>
      simp only [shutdownLoop, Bool.and_eq_true, ih, List.mem_cons]
      constructor
      · rintro ⟨h1, h2⟩ x hx
        rcases hx with rfl | hx
        · intro ha hb
          simp [shutdownOne, ha, hb] at h1
        · exact h2 x hx
      · intro hall
        refine ⟨?_, fun x hx => hall x (Or.inr hx)⟩
        by_cases ha : nh.2.alive = true
        · have hb := hall nh (Or.inl rfl) ha
          cases hcase : nh.2.behavior with
          | gracefulOk => simp [shutdownOne, ha, hcase]
          | timeoutThenKill => simp [shutdownOne, ha, hcase]
          | raisesError => exact absurd hcase hb
        · have ha' : nh.2.alive = false := by
            cases hb : nh.2.alive
            · rfl
            · exact absurd hb ha
          simp [shutdownOne, ha']

theorem shutdownLoop_attempts (procs : List (Str × Handle)) :
    ∀ nh ∈ procs, nh.2.alive = true →
      ShutdownAction.term nh.2.pid ∈ (shutdownLoop procs).2 := by
  induction procs with
  | nil => simp
  | cons x rest ih =>
      intro nh hmem ha
      simp only [shutdownLoop, List.mem_append]
      rcases List.mem_cons.mp hmem with rfl | hmem
      · left
        cases hcase : nh.2.behavior with
        | gracefulOk => simp [shutdownOne, ha, hcase]
        | timeoutThenKill => simp [shutdownOne, ha, hcase]
        | raisesError => simp [shutdownOne, ha, hcase]
      · exact Or.inr (ih nh hmem ha)

/-- C7: shutdown attempts graceful termination of every live handle even
when some handle's shutdown steps error — it returns false in that case but
still processes the remaining handles — always leaves the handle table
empty, and on an empty table returns success with no actions. -/
theorem shutdown_spec (procs : List (Str × Handle)) :
    (shutdown procs).2.2 = []
    ∧ ((shutdown procs).1 = true ↔
        ∀ nh ∈ procs, nh.2.alive = true → nh.2.behavior ≠ TermBehavior.raisesError)
    ∧ (∀ nh ∈ procs, nh.2.alive = true →
        ShutdownAction.term nh.2.pid ∈ (shutdown procs).2.1)
    ∧ shutdown ([] : List (Str × Handle)) = (true, [], []) :=
  ⟨rfl, shutdownLoop_success procs, shutdownLoop_attempts procs, rfl⟩

/-- C7 witness: a three-handle table — one graceful, one erroring, one
already dead — is fully processed, the erroring handle flips success to
false, and the table ends empty. -/
theorem shutdown_spec_witness :
    (shutdown ((("a".data), Handle.mk 1 true TermBehavior.gracefulOk) ::
        (("b".data), Handle.mk 2 true TermBehavior.raisesError) ::
        (("c".data), Handle.mk 3 false TermBehavior.gracefulOk) :: [])).2.2 = []
    ∧ ((shutdown ((("a".data), Handle.mk 1 true TermBehavior.gracefulOk) ::
        (("b".data), Handle.mk 2 true TermBehavior.raisesError) ::
        (("c".data), Handle.mk 3 false TermBehavior.gracefulOk) :: [])).1 = true ↔
        ∀ nh ∈ ((("a".data), Handle.mk 1 true TermBehavior.gracefulOk) ::
        (("b".data), Handle.mk 2 true TermBehavior.raisesError) ::
        (("c".data), Handle.mk 3 false TermBehavior.gracefulOk) :: []),
          nh.2.alive = true → nh.2.behavior ≠ TermBehavior.raisesError)
    ∧ (∀ nh ∈ ((("a".data), Handle.mk 1 true TermBehavior.gracefulOk) ::
        (("b".data), Handle.mk 2 true TermBehavior.raisesError) ::
        (("c".data), Handle.mk 3 false TermBehavior.gracefulOk) :: []),
        nh.2.alive = true →
          ShutdownAction.term nh.2.pid ∈ (shutdown ((("a".data), Handle.mk 1 true TermBehavior.gracefulOk) ::
            (("b".data), Handle.mk 2 true TermBehavior.raisesError) ::
            (("c".data), Handle.mk 3 false TermBehavior.gracefulOk) :: [])).2.1)
    ∧ shutdown ([] : List (Str × Handle)) = (true, [], []) :=
  shutdown_spec ((("a".data), Handle.mk 1 true TermBehavior.gracefulOk) ::
    (("b".data), Handle.mk 2 true TermBehavior.raisesError) ::
    (("c".data), Handle.mk 3 false TermBehavior.gracefulOk) :: [])

/-- A chat message (role/content pair) from the request body. -/
structure ChatMsg where
  role : Str
  content : Str
deriving DecidableEq

/-- The fields `_handle_chat` reads from the parsed POST body; each is
`none` when the corresponding key is absent from the JSON object. -/
structure ChatBody where
  model : Option Str
  messages : Option (List ChatMsg)
  stream : Option Bool
deriving DecidableEq

/-- Embedding of `_get_post_data` (local_proxy_service.py, lines 46-53): a
body that is missing or fails to parse as JSON (`raw = none`) is replaced
by the empty dict. -/
def get_post_data (raw : Option ChatBody) : ChatBody :=
  match raw with
  | some b => b
  | none => ⟨none, none, none⟩

/-- The default model name substituted by `_handle_chat`. -/
def defaultModel : Str := "llama3.1:latest".data

/-- The error text of the 400 response for an empty message list. -/
def messagesRequiredMsg : Str := "Messages are required".data

/-- The observable outcome of `_handle_chat`: a 400 JSON error response
sent without contacting the backend, or a backend chat call (streamed or
buffered) with the resolved model and messages. -/
inductive ChatOutcome where
  | clientError (statusCode : Nat) (errorMsg : Str)
  | streamed (model : Str) (messages : List ChatMsg)
  | buffered (model : Str) (messages : List ChatMsg)
deriving DecidableEq

/-- Embedding of `_handle_chat` (local_proxy_service.py, lines 208-236):
read the body with defaults (`model` falls back to `llama3.1:latest`,
`messages` to `[]`, `stream` to `False`), reject an empty message list with
a 400 JSON error, otherwise dispatch to the streaming or buffered path. -/
def handle_chat (raw : Option ChatBody) : ChatOutcome :=
  let data := get_post_data raw
  let model := data.model.getD defaultModel
  let messages := data.messages.getD []
  let stream := data.stream.getD false
  if messages = [] then ChatOutcome.clientError 400 messagesRequiredMsg
  else if stream then ChatOutcome.streamed model messages
  else ChatOutcome.buffered model messages

/-- Whether the outcome involved a call to the inference backend. -/
def backendCalled : ChatOutcome → Bool
  | ChatOutcome.clientError _ _ => false
  | ChatOutcome.streamed _ _ => true
  | ChatOutcome.buffered _ _ => true

/-- The model name the backend was called with, if it was called. -/
def outcomeModel : ChatOutcome → Option Str
  | ChatOutcome.clientError _ _ => none
  | ChatOutcome.streamed m _ => some m
  | ChatOutcome.buffered m _ => some m

/-- C8: a POST /chat body that is missing, unparseable, or carries an empty
messages list receives a 400 response with a non-empty JSON error text, and
the backend is never called. -/
theorem handle_chat_rejects_empty_messages (raw : Option ChatBody)
    (h : raw = none ∨ ∃ b, raw = some b ∧ b.messages.getD [] = []) :
    handle_chat raw = ChatOutcome.clientError 400 messagesRequiredMsg
    ∧ messagesRequiredMsg ≠ []
    ∧ backendCalled (handle_chat raw) = false := by
  have hmain : handle_chat raw = ChatOutcome.clientError 400 messagesRequiredMsg := by
    rcases h with rfl | ⟨b, rfl, hb⟩
    · rfl
    · simp [handle_chat, get_post_data, hb]
  exact ⟨hmain, by decide, by rw [hmain]; rfl⟩

/-- C8 witness: the spec's example body with model `x` and empty messages
list is rejected with 400 and no backend call. -/
theorem handle_chat_rejects_empty_messages_witness :
    handle_chat (some (ChatBody.mk (some ('x' :: [])) (some []) none)) =
        ChatOutcome.clientError 400 messagesRequiredMsg
    ∧ messagesRequiredMsg ≠ []
    ∧ backendCalled (handle_chat (some (ChatBody.mk (some ('x' :: [])) (some []) none))) = false :=
  handle_chat_rejects_empty_messages (some (ChatBody.mk (some ('x' :: [])) (some []) none))
    (Or.inr ⟨ChatBody.mk (some ('x' :: [])) (some []) none, rfl, rfl⟩)

/-- C9 counterexample: a body with a non-empty messages list but no model
identifier is not rejected — the handler substitutes the default model
`llama3.1:latest` and calls the backend, rather than returning 400. -/
theorem handle_chat_missing_model_counterexample :
    handle_chat (some (ChatBody.mk none (some (ChatMsg.mk ("user".data) ("hi".data) :: [])) (some false))) =
        ChatOutcome.buffered defaultModel (ChatMsg.mk ("user".data) ("hi".data) :: [])
    ∧ backendCalled (handle_chat (some (ChatBody.mk none
        (some (ChatMsg.mk ("user".data) ("hi".data) :: [])) (some false)))) = true := by
  exact ⟨rfl, rfl⟩

/-- C9 (amended): a body lacking a model identifier is not rejected; the
model defaults to `llama3.1:latest` and the request is served — only an
empty or missing messages list yields the 400 rejection. -/
theorem handle_chat_defaults_missing_model (b : ChatBody) (hm : b.model = none)
    (hmsg : b.messages.getD [] ≠ []) :
    backendCalled (handle_chat (some b)) = true
    ∧ outcomeModel (handle_chat (some b)) = some defaultModel := by
  cases hstream : b.stream.getD false with
  | true =>
      constructor <;> simp [handle_chat, get_post_data, hm, hmsg, hstream, backendCalled, outcomeModel]
  | false =>
      constructor <;> simp [handle_chat, get_post_data, hm, hmsg, hstream, backendCalled, outcomeModel]

/-- C9 amended-claim witness: the counterexample body, served with the
default model. -/
theorem handle_chat_defaults_missing_model_witness :
    backendCalled (handle_chat (some (ChatBody.mk none
        (some (ChatMsg.mk ("user".data) ("hi".data) :: [])) (some false)))) = true
    ∧ outcomeModel (handle_chat (some (ChatBody.mk none
        (some (ChatMsg.mk ("user".data) ("hi".data) :: [])) (some false)))) = some defaultModel :=
  handle_chat_defaults_missing_model
    (ChatBody.mk none (some (ChatMsg.mk ("user".data) ("hi".data) :: [])) (some false))
    rfl (by decide)

/-- Python `str.split()` helper: accumulate the current word (reversed) and
split on whitespace runs, discarding empty fields. -/
def pySplitAux : Str → Str → List Str
  | [], acc => if acc = [] then [] else acc.reverse :: []
  | ch :: rest, acc =>
      if ch.isWhitespace then
        if acc = [] then pySplitAux rest [] else acc.reverse :: pySplitAux rest []
      else pySplitAux rest (ch :: acc)

/-- Python `line.split()`: fields separated by whitespace runs. -/
def pySplit (s : Str) : List Str := pySplitAux s []

/-- Python `int(s)` restricted to the decimal digit strings appearing in
the netstat pid column; any other input raises, modelled as `none`. -/
def parseNat? (s : Str) : Option Nat :=
  if s ≠ [] ∧ s.all (fun c => c.isDigit) then
    some (s.foldl (fun acc c => acc * 10 + (c.toNat - 48)) 0)
  else none

/-- The substring `':{port}'` searched for in each netstat line. -/
def portNeedle (port : Nat) : Str := ':' :: (Nat.repr port).data

/-- The netstat state column value selected by the reaper. -/
def listeningStr : Str := "LISTENING".data

/-- The line filter of `kill_processes_on_ports` (universal_launcher.py,
line 115): Python `f':{port}' in line and 'LISTENING' in line` — a pure
substring test, with no anchoring of the port number. -/
def lineSelected (port : Nat) (line : Str) : Bool :=
  pyIn (portNeedle port) line && pyIn listeningStr line

theorem lineSelected_iff (port : Nat) (line : Str) :
    lineSelected port line = true ↔
      (portNeedle port <:+: line ∧ listeningStr <:+: line) := by
  simp [lineSelected, pyIn_iff]

/-- The per-port scan over the netstat output (universal_launcher.py, lines
113-128): each selected line with at least five fields has its last field
parsed as a pid and the process terminated (success modelled by `canKill`;
failures are logged and skipped). A non-numeric pid raises `ValueError`
out of the inner loop, which the per-port handler catches — dropping the
pids collected for this port — modelled by `none`. -/
def scanLines (canKill : Nat → Bool) (port : Nat) : List Str → Option (List Nat)
  | [] => some []
  | line :: rest =>
      if lineSelected port line then
        let parts := pySplit line
        if 5 ≤ parts.length then
          match parseNat? (parts.getLastD []) with
          | some pid =>
              match scanLines canKill port rest with
              | some pids => some (if canKill pid then pid :: pids else pids)
              | none => none
          | none => none
        else scanLines canKill port rest
      else scanLines canKill port rest

/-- Embedding of `UniversalLauncher.kill_processes_on_ports`
(universal_launcher.py, lines 90-143) over a fixed netstat text: for each
target port, scan all lines and record the port's killed pids when the
scan both succeeded and killed something. -/
def kill_processes_on_ports (canKill : Nat → Bool) (netstatLines : List Str) :
    List Nat → List (Nat × List Nat)
  | [] => []
  | port :: rest =>
      let tail := kill_processes_on_ports canKill netstatLines rest
      match scanLines canKill port netstatLines with
      | some pids => if pids = [] then tail else (port, pids) :: tail
      | none => tail

/-- The port a netstat line actually listens on: the digits after the last
colon of its local-address column (the second whitespace-separated field). -/
def listeningPortOf (line : Str) : Option Nat :=
  ((pySplit line)[1]?).bind fun addr =>
    parseNat? ((addr.reverse.takeWhile fun c => c ≠ ':').reverse)

/-- A netstat listening-table line for a process listening on port 8080. -/
def demoNetstatLine : Str :=
  "  TCP    0.0.0.0:8080           0.0.0.0:0              LISTENING       1234".data

/-- C10: the reaper selects lines by raw substring match — the needle
`:80` occurs inside `0.0.0.0:8080`, so with target port 80 the reaper
terminates pid 1234 even though that process listens on 8080, not 80. -/
theorem kill_processes_substring_overmatch :
    portNeedle 80 <:+: demoNetstatLine
    ∧ listeningStr <:+: demoNetstatLine
    ∧ lineSelected 80 demoNetstatLine = true
    ∧ kill_processes_on_ports (fun _ => true) (demoNetstatLine :: []) (80 :: []) =
        ((80, 1234 :: []) :: [])
    ∧ listeningPortOf demoNetstatLine = some 8080
    ∧ 8080 ≠ 80 := by
  refine ⟨(pyIn_iff _ _).mp rfl, (pyIn_iff _ _).mp rfl, rfl, rfl, rfl, by decide⟩

end Liberation
